import Mathlib

/-!
Verification of the kubeip agent bootstrap shell (`cmd/main.go`).

The Go code is shallowly embedded: external effects (file reads, kubeconfig
parsing, in-cluster discovery, client construction, node lookup) are supplied
by an `Env` oracle of pure functions; each embedded operation additionally
returns the list of effect events it performed, so that claims about which
credential source is consulted, and when the run parks on the cancellation
context, are statable.
-/

namespace KubeIP

/-- Level of the logrus logger (the subset of levels the code mentions). -/
inductive LogrusLevel where
  | panic
  | fatal
  | error
  | warn
  | info
  | debug
deriving DecidableEq, Repr

/-- A logrus formatter: `&logrus.TextFormatter{FullTimestamp: b}` or
`&logrus.JSONFormatter{}`. -/
inductive Formatter where
  | text (fullTimestamp : Bool)
  | json
deriving DecidableEq, Repr

/-- The mutable state of a `logrus.Logger` that `prepareLogger` touches.
`logrus.New()` starts at info level, text formatter without full timestamps,
and caller reporting off. -/
structure Logger where
  level : LogrusLevel
  formatter : Formatter
  reportCaller : Bool
deriving DecidableEq, Repr

/-- `logrus.New()`. -/
def logrusNew : Logger :=
  { level := .info, formatter := .text false, reportCaller := false }

/-- A `*logrus.Entry`: a logger together with attached fields. -/
structure Entry where
  logger : Logger
  fields : List (String × String)
deriving DecidableEq, Repr

/-- The `switch level` statement of `prepareLogger` (main.go:45-60): each
recognized word matches in all-lowercase or all-uppercase spelling only,
and the `default` arm selects the warning level. -/
def setLevelFromString (level : String) : LogrusLevel :=
  if level = "debug" ∨ level = "DEBUG" then .debug
  else if level = "info" ∨ level = "INFO" then .info
  else if level = "warning" ∨ level = "WARNING" then .warn
  else if level = "error" ∨ level = "ERROR" then .error
  else if level = "fatal" ∨ level = "FATAL" then .fatal
  else if level = "panic" ∨ level = "PANIC" then .panic
  else .warn

/-- `prepareLogger(level, json)` (main.go:41-77).  The package-level `version`
variable (set by the linker) is passed explicitly.  The statements are
replayed in source order: level switch, text formatter, JSON formatter when
`json` is set, caller reporting, then `WithFields{"version": version}`. -/
def prepareLogger (version : String) (level : String) (json : Bool) : Entry :=
  let logger := logrusNew
  let logger := { logger with level := setLevelFromString level }
  let logger := { logger with formatter := Formatter.text true }
  let logger := if json then { logger with formatter := Formatter.json } else logger
  let logger := { logger with reportCaller := true }
  { logger := logger, fields := [("version", version)] }

/-- A `*rest.Config` (only its identity matters to the bootstrap). -/
structure RestConfig where
  host : String
deriving DecidableEq, Repr

/-- A `*kubernetes.Clientset`, built from a rest config. -/
structure Clientset where
  restConfig : RestConfig
deriving DecidableEq, Repr

/-- A node descriptor (only `.Name` is consulted). -/
structure Node where
  name : String
deriving DecidableEq, Repr

/-- The `config.Config` record loaded from flags/environment: a flat record
of scalars.  Durations are nanosecond counts as in Go's `time.Duration`. -/
structure Config where
  kubeConfigPath : String
  nodeName : String
  retryInterval : Nat
  retryAttempts : Nat
  logLevel : String
  logJson : Bool
  developMode : Bool
deriving DecidableEq, Repr

/-- Errors of the bootstrap path.  Leaf constructors stand for errors
produced by external libraries (`os.ReadFile`,
`clientcmd.RESTConfigFromKubeConfig`, `rest.InClusterConfig`,
`kubernetes.NewForConfig`, `explorer.GetNode`); `emptyPath` is the package
sentinel `errEmptyPath`; `wrap` is `errors.Wrap`/`errors.Wrapf` with the
given message. -/
inductive KubeErr where
  | emptyPath
  | osError (msg : String)
  | clientcmdError (msg : String)
  | restError (msg : String)
  | clientError (msg : String)
  | nodeError (msg : String)
  | wrap (msg : String) (e : KubeErr)
deriving DecidableEq, Repr

/-- `errors.Is(err, errEmptyPath)`: `pkg/errors` wrapping is transparent to
`errors.Is`, so the check unwraps every `wrap` layer. -/
def KubeErr.isErrEmptyPath : KubeErr → Bool
  | .emptyPath => true
  | .wrap _ e => e.isErrEmptyPath
  | _ => false

/-- Whether the error chain contains a `wrap` layer carrying message `s`. -/
def KubeErr.hasMsg : KubeErr → String → Bool
  | .wrap m e, s => m = s || e.hasMsg s
  | _, _ => false

/-- Effect events of the bootstrap, in the order they are performed. -/
inductive Event where
  | readFile (path : String)
  | parseConfig (data : String)
  | inClusterAttempt
  | newClient
  | getNodeCall
  | waitDone
deriving DecidableEq, Repr

/-- The external world: results of the library calls the bootstrap makes.
Each field models one external function; `Except` mirrors Go's
`(value, error)` returns. -/
structure Env where
  readFile : String → Except String String
  restConfigFromKubeConfig : String → Except String RestConfig
  inClusterConfig : Except String RestConfig
  newForConfig : RestConfig → Except String Clientset
  getNode : Clientset → Except String Node

/-- Message of the read-stage wrap: `"reading kubeconfig at %s"`. -/
def readStageMsg (kubepath : String) : String :=
  "reading kubeconfig at " ++ kubepath

/-- Message of the parse-stage wrap:
`"building rest config from kubeconfig at %s"`. -/
def parseStageMsg (kubepath : String) : String :=
  "building rest config from kubeconfig at " ++ kubepath

/-- `kubeConfigFromPath(kubepath)` (main.go:198-214), instrumented with the
events it performs.  Empty path returns the sentinel before any I/O; a read
failure is wrapped with `readStageMsg`; a parse failure with
`parseStageMsg`. -/
def kubeConfigFromPath (env : Env) (kubepath : String) :
    Except KubeErr RestConfig × List Event :=
  if kubepath = "" then (.error .emptyPath, [])
  else
    match env.readFile kubepath with
    | .error e =>
        (.error (.wrap (readStageMsg kubepath) (.osError e)), [.readFile kubepath])
    | .ok data =>
        match env.restConfigFromKubeConfig data with
        | .error e =>
            (.error (.wrap (parseStageMsg kubepath) (.clientcmdError e)),
             [.readFile kubepath, .parseConfig data])
        | .ok cfg => (.ok cfg, [.readFile kubepath, .parseConfig data])

/-- `retrieveKubeConfig(log, cfg)` (main.go:216-233), instrumented.  A path
error other than the empty-path sentinel is fatal; a non-nil kubeconfig is
returned as-is; only otherwise is `rest.InClusterConfig()` attempted. -/
def retrieveKubeConfig (env : Env) (cfg : Config) :
    Except KubeErr RestConfig × List Event :=
  match kubeConfigFromPath env cfg.kubeConfigPath with
  | (.error e, tr) =>
      if ¬ e.isErrEmptyPath then
        (.error (.wrap "retrieving kube config from path" e), tr)
      else
        match env.inClusterConfig with
        | .error e2 =>
            (.error (.wrap "retrieving in node kube config" (.restError e2)),
             tr ++ [.inClusterAttempt])
        | .ok c => (.ok c, tr ++ [.inClusterAttempt])
  | (.ok kubeconfig, tr) => (.ok kubeconfig, tr)

/-- A `context.Context` value store: keyed boolean values, later entries
shadowing earlier ones, as built by `context.WithValue`. -/
abbrev Ctx := List (String × Bool)

/-- The key `developModeKey` (main.go:24). -/
def developModeKey : String := "develop-mode"

/-- Result of `run`: error returned (`none` is Go's `nil`), the events
performed, the derived context at return, and the `cfg` value held at
return (Go passes `cfg` by value, so this is what the function body left
it as). -/
structure RunResult where
  err : Option KubeErr
  trace : List Event
  ctx : Ctx
  cfgAtReturn : Config
deriving Repr

/-- The context derived inside `run` (main.go:80-85): `context.WithCancel`
keeps the parent's values, and develop mode is attached only when
`cfg.DevelopMode` is set. -/
def derivedCtx (c : Ctx) (cfg : Config) : Ctx :=
  if cfg.developMode then (developModeKey, true) :: c else c

/-- `run(c, log, cfg)` (main.go:79-110), instrumented.  Develop mode is
attached to the derived context only when `cfg.DevelopMode`; the three
bootstrap steps each wrap their failure; only after all three succeed does
the run park on `<-ctx.Done()` (event `waitDone`) and then return `nil`. -/
def run (env : Env) (c : Ctx) (cfg : Config) : RunResult :=
  let ctx := derivedCtx c cfg
  match retrieveKubeConfig env cfg with
  | (.error e, tr) =>
      { err := some (.wrap "retrieving kube config" e), trace := tr,
        ctx := ctx, cfgAtReturn := cfg }
  | (.ok restconfig, tr) =>
      match env.newForConfig restconfig with
      | .error e =>
          { err := some (.wrap "initializing kubernetes client" (.clientError e)),
            trace := tr ++ [.newClient], ctx := ctx, cfgAtReturn := cfg }
      | .ok clientset =>
          match env.getNode clientset with
          | .error e =>
              { err := some (.wrap "getting node" (.nodeError e)),
                trace := tr ++ [.newClient, .getNodeCall], ctx := ctx,
                cfgAtReturn := cfg }
          | .ok _ =>
              { err := none,
                trace := tr ++ [.newClient, .getNodeCall, .waitDone], ctx := ctx,
                cfgAtReturn := cfg }

/-- Outcome of `runCmd`: either a normal return or process termination via
`log.Fatalf("eks-lens agent failed: %v", err)`. -/
inductive CmdOutcome where
  | ok
  | fatalExit (e : KubeErr)
deriving DecidableEq, Repr

/-- `runCmd(c)` (main.go:112-122): runs `run` and turns a non-nil error into
a fatal log call; otherwise returns `nil`. -/
def runCmd (env : Env) (c : Ctx) (cfg : Config) : CmdOutcome × List Event :=
  let r := run env c cfg
  match r.err with
  | some e => (.fatalExit e, r.trace)
  | none => (.ok, r.trace)

/-- `defaultRetryInterval = 5 * time.Minute` in nanoseconds (main.go:37). -/
def defaultRetryInterval : Nat := 5 * 60 * 1000000000

/-- `defaultRetryAttempts = 10` (main.go:38). -/
def defaultRetryAttempts : Nat := 10

/-- `urfave/cli` flag resolution: the command-line value when given,
otherwise the first environment variable that is set, otherwise the flag's
`Value` default.  The `retry-interval` flag lists `RETRY_INTERVAL` and the
`retry-attempts` flag lists `RETRY_ATTEMPTS` as their only env vars
(main.go:143-156). -/
def resolveFlag (cmdline : Option Nat) (envVals : List (Option Nat))
    (dflt : Nat) : Nat :=
  match cmdline with
  | some v => v
  | none =>
      match (envVals.filterMap id).head? with
      | some v => v
      | none => dflt

/-- The effective `retry-interval` value for a given command line and
environment. -/
def effectiveRetryInterval (cmdline : Option Nat) (envRetryInterval : Option Nat) : Nat :=
  resolveFlag cmdline [envRetryInterval] defaultRetryInterval

/-- The effective `retry-attempts` value for a given command line and
environment. -/
def effectiveRetryAttempts (cmdline : Option Nat) (envRetryAttempts : Option Nat) : Nat :=
  resolveFlag cmdline [envRetryAttempts] defaultRetryAttempts

/-! ### Concrete environments and configurations for evaluation -/

/-- Rest config produced from a kubeconfig file. -/
def rcFile : RestConfig := { host := "file-host" }

/-- Rest config produced by in-cluster discovery. -/
def rcCluster : RestConfig := { host := "in-cluster-host" }

/-- A world where every external call succeeds. -/
def envAllOk : Env where
  readFile := fun _ => Except.ok "apiVersion: v1"
  restConfigFromKubeConfig := fun _ => Except.ok rcFile
  inClusterConfig := Except.ok rcCluster
  newForConfig := fun rc => Except.ok { restConfig := rc }
  getNode := fun _ => Except.ok { name := "node-1" }

/-- A world where reading the kubeconfig file fails. -/
def envReadFail : Env :=
  { envAllOk with readFile := fun _ => Except.error "no such file" }

/-- A world where the kubeconfig file is readable but malformed. -/
def envParseFail : Env :=
  { envAllOk with restConfigFromKubeConfig := fun _ => Except.error "yaml error" }

/-- A configuration with a non-empty kubeconfig path. -/
def cfgWithPath : Config where
  kubeConfigPath := "kc.yaml"
  nodeName := ""
  retryInterval := defaultRetryInterval
  retryAttempts := defaultRetryAttempts
  logLevel := "info"
  logJson := false
  developMode := false

/-- The same configuration with an empty kubeconfig path. -/
def cfgEmptyPath : Config := { cfgWithPath with kubeConfigPath := "" }

/-- The same configuration with develop mode enabled. -/
def cfgDev : Config := { cfgWithPath with developMode := true }

/-! ### Case analyses of the embedded operations -/

/-- Exhaustive case analysis of `kubeConfigFromPath`: empty path, read
failure, parse failure, or success, each with its exact result and trace. -/
theorem kcfp_cases (env : Env) (p : String) :
    (p = "" ∧ kubeConfigFromPath env p = (.error .emptyPath, [])) ∨
    (p ≠ "" ∧ ∃ e, env.readFile p = .error e ∧
        kubeConfigFromPath env p =
          (.error (.wrap (readStageMsg p) (.osError e)), [.readFile p])) ∨
    (p ≠ "" ∧ ∃ d e, env.readFile p = .ok d ∧
        env.restConfigFromKubeConfig d = .error e ∧
        kubeConfigFromPath env p =
          (.error (.wrap (parseStageMsg p) (.clientcmdError e)),
           [.readFile p, .parseConfig d])) ∨
    (p ≠ "" ∧ ∃ d rc, env.readFile p = .ok d ∧
        env.restConfigFromKubeConfig d = .ok rc ∧
        kubeConfigFromPath env p = (.ok rc, [.readFile p, .parseConfig d])) := by
  by_cases hp : p = ""
  · exact Or.inl ⟨hp, by simp [kubeConfigFromPath, hp]⟩
  · rcases hr : env.readFile p with e | d
    · exact Or.inr (Or.inl ⟨hp, e, rfl, by simp [kubeConfigFromPath, hp, hr]⟩)
    · rcases hc : env.restConfigFromKubeConfig d with e | rc
      · exact Or.inr (Or.inr (Or.inl ⟨hp, d, e, rfl, hc,
          by simp [kubeConfigFromPath, hp, hr, hc]⟩))
      · exact Or.inr (Or.inr (Or.inr ⟨hp, d, rc, rfl, hc,
          by simp [kubeConfigFromPath, hp, hr, hc]⟩))

/-- Every event in a `kubeConfigFromPath` trace is a file read of the given
path or a parse of its contents. -/
theorem kcfp_trace_mem (env : Env) (p : String) (ev : Event)
    (h : ev ∈ (kubeConfigFromPath env p).2) :
    ev = .readFile p ∨ ∃ d, ev = .parseConfig d := by
  rcases kcfp_cases env p with ⟨hp, hk⟩ | ⟨hp, e, hr, hk⟩ |
      ⟨hp, d, e, hr, hc, hk⟩ | ⟨hp, d, rc, hr, hc, hk⟩ <;>
    rw [hk] at h <;> simp at h <;> tauto

/-- A `kubeConfigFromPath` trace has no repeated event. -/
theorem kcfp_trace_nodup (env : Env) (p : String) :
    (kubeConfigFromPath env p).2.Nodup := by
  rcases kcfp_cases env p with ⟨hp, hk⟩ | ⟨hp, e, hr, hk⟩ |
      ⟨hp, d, e, hr, hc, hk⟩ | ⟨hp, d, rc, hr, hc, hk⟩ <;>
    rw [hk] <;> simp

/-- Exhaustive case analysis of `retrieveKubeConfig`: success from path,
fatal path error, or fall-through to in-cluster discovery (which itself
succeeds or fails). -/
theorem retrieve_cases (env : Env) (cfg : Config) :
    (∃ rc tr, kubeConfigFromPath env cfg.kubeConfigPath = (.ok rc, tr) ∧
        retrieveKubeConfig env cfg = (.ok rc, tr)) ∨
    (∃ e tr, kubeConfigFromPath env cfg.kubeConfigPath = (.error e, tr) ∧
        e.isErrEmptyPath = false ∧
        retrieveKubeConfig env cfg =
          (.error (.wrap "retrieving kube config from path" e), tr)) ∨
    (∃ e tr, kubeConfigFromPath env cfg.kubeConfigPath = (.error e, tr) ∧
        e.isErrEmptyPath = true ∧
        ((∃ e2, env.inClusterConfig = .error e2 ∧
            retrieveKubeConfig env cfg =
              (.error (.wrap "retrieving in node kube config" (.restError e2)),
               tr ++ [.inClusterAttempt])) ∨
         (∃ c2, env.inClusterConfig = .ok c2 ∧
            retrieveKubeConfig env cfg = (.ok c2, tr ++ [.inClusterAttempt])))) := by
  rcases hk : kubeConfigFromPath env cfg.kubeConfigPath with ⟨r, tr⟩
  cases r with
  | ok rc => exact Or.inl ⟨rc, tr, rfl, by simp [retrieveKubeConfig, hk]⟩
  | error e =>
    rcases he : e.isErrEmptyPath with _ | _
    · exact Or.inr (Or.inl ⟨e, tr, rfl, he,
        by simp [retrieveKubeConfig, hk, he]⟩)
    · rcases hi : env.inClusterConfig with e2 | c2
      · exact Or.inr (Or.inr ⟨e, tr, rfl, he, Or.inl ⟨e2, rfl,
          by simp [retrieveKubeConfig, hk, he, hi]⟩⟩)
      · exact Or.inr (Or.inr ⟨e, tr, rfl, he, Or.inr ⟨c2, rfl,
          by simp [retrieveKubeConfig, hk, he, hi]⟩⟩)

/-- Exhaustive case analysis of `run`: failure at each bootstrap step with
its wrap message, or full success ending in the wait on `ctx.Done()`. -/
theorem run_cases (env : Env) (c : Ctx) (cfg : Config) :
    (∃ e tr, retrieveKubeConfig env cfg = (.error e, tr) ∧
       run env c cfg = ⟨some (.wrap "retrieving kube config" e), tr,
         derivedCtx c cfg, cfg⟩) ∨
    (∃ rc tr e, retrieveKubeConfig env cfg = (.ok rc, tr) ∧
       env.newForConfig rc = .error e ∧
       run env c cfg = ⟨some (.wrap "initializing kubernetes client" (.clientError e)),
         tr ++ [.newClient], derivedCtx c cfg, cfg⟩) ∨
    (∃ rc tr cs e, retrieveKubeConfig env cfg = (.ok rc, tr) ∧
       env.newForConfig rc = .ok cs ∧ env.getNode cs = .error e ∧
       run env c cfg = ⟨some (.wrap "getting node" (.nodeError e)),
         tr ++ [.newClient, .getNodeCall], derivedCtx c cfg, cfg⟩) ∨
    (∃ rc tr cs n, retrieveKubeConfig env cfg = (.ok rc, tr) ∧
       env.newForConfig rc = .ok cs ∧ env.getNode cs = .ok n ∧
       run env c cfg = ⟨none, tr ++ [.newClient, .getNodeCall, .waitDone],
         derivedCtx c cfg, cfg⟩) := by
  rcases hr : retrieveKubeConfig env cfg with ⟨r, tr⟩
  cases r with
  | error e => exact Or.inl ⟨e, tr, rfl, by simp [run, hr]⟩
  | ok rc =>
    rcases hn : env.newForConfig rc with e | cs
    · exact Or.inr (Or.inl ⟨rc, tr, e, rfl, hn, by simp [run, hr, hn]⟩)
    · rcases hg : env.getNode cs with e | n
      · exact Or.inr (Or.inr (Or.inl ⟨rc, tr, cs, e, rfl, hn, hg,
          by simp [run, hr, hn, hg]⟩))
      · exact Or.inr (Or.inr (Or.inr ⟨rc, tr, cs, n, rfl, hn, hg,
          by simp [run, hr, hn, hg]⟩))

/-- Every event in a `retrieveKubeConfig` trace is a file read of the
configured path, a parse, or the in-cluster attempt. -/
theorem retrieve_trace_mem (env : Env) (cfg : Config) (ev : Event)
    (h : ev ∈ (retrieveKubeConfig env cfg).2) :
    ev = .readFile cfg.kubeConfigPath ∨ (∃ d, ev = .parseConfig d) ∨
      ev = .inClusterAttempt := by
  have hmem : ∀ tr r, kubeConfigFromPath env cfg.kubeConfigPath = (r, tr) →
      ev ∈ tr → ev = .readFile cfg.kubeConfigPath ∨ ∃ d, ev = .parseConfig d := by
    intro tr r hk htr
    exact kcfp_trace_mem env cfg.kubeConfigPath ev (by rw [hk]; exact htr)
  rcases retrieve_cases env cfg with ⟨rc, tr, hk, hrv⟩ | ⟨e, tr, hk, he, hrv⟩ |
      ⟨e, tr, hk, he, h3⟩
  · rw [hrv] at h
    rcases hmem tr _ hk h with h1 | h1 <;> tauto
  · rw [hrv] at h
    rcases hmem tr _ hk h with h1 | h1 <;> tauto
  · rcases h3 with ⟨e2, hi, hrv⟩ | ⟨c2, hi, hrv⟩ <;> rw [hrv] at h <;>
      simp only [List.mem_append, List.mem_singleton] at h <;>
      rcases h with h | h
    · rcases hmem tr _ hk h with h1 | h1 <;> tauto
    · tauto
    · rcases hmem tr _ hk h with h1 | h1 <;> tauto
    · tauto

/-- A `retrieveKubeConfig` trace has no repeated event. -/
theorem retrieve_trace_nodup (env : Env) (cfg : Config) :
    (retrieveKubeConfig env cfg).2.Nodup := by
  have hnd : ∀ tr r, kubeConfigFromPath env cfg.kubeConfigPath = (r, tr) →
      tr.Nodup := by
    intro tr r hk
    have := kcfp_trace_nodup env cfg.kubeConfigPath
    rwa [hk] at this
  have hni : ∀ tr r, kubeConfigFromPath env cfg.kubeConfigPath = (r, tr) →
      Event.inClusterAttempt ∉ tr := by
    intro tr r hk hm
    rcases kcfp_trace_mem env cfg.kubeConfigPath _ (by rw [hk]; exact hm) with
      h1 | ⟨d, h1⟩ <;> simp at h1
  rcases retrieve_cases env cfg with ⟨rc, tr, hk, hrv⟩ | ⟨e, tr, hk, he, hrv⟩ |
      ⟨e, tr, hk, he, h3⟩
  · rw [hrv]; exact hnd tr _ hk
  · rw [hrv]; exact hnd tr _ hk
  · rcases h3 with ⟨e2, hi, hrv⟩ | ⟨c2, hi, hrv⟩ <;> rw [hrv] <;>
      refine List.Nodup.append (hnd tr _ hk) (by simp) ?_ <;>
      · intro a ha hb
        simp only [List.mem_singleton] at hb
        subst hb
        exact hni tr _ hk ha

/-- A `run` trace has no repeated event: no external call is retried. -/
theorem run_trace_nodup (env : Env) (c : Ctx) (cfg : Config) :
    (run env c cfg).trace.Nodup := by
  have hnd := retrieve_trace_nodup env cfg
  have hdisj : ∀ tr r, retrieveKubeConfig env cfg = (r, tr) →
      ∀ a ∈ tr, a = Event.newClient ∨ a = Event.getNodeCall ∨
        a = Event.waitDone → False := by
    intro tr r hrv a ha hmem
    have := retrieve_trace_mem env cfg a (by rw [hrv]; exact ha)
    rcases this with h1 | ⟨d, h1⟩ | h1 <;> subst h1 <;> simp at hmem
  rcases run_cases env c cfg with ⟨e, tr, hr, hrun⟩ | ⟨rc, tr, e, hr, hn, hrun⟩ |
      ⟨rc, tr, cs, e, hr, hn, hg, hrun⟩ | ⟨rc, tr, cs, n, hr, hn, hg, hrun⟩ <;>
    rw [hrun] <;> rw [hr] at hnd
  · exact hnd
  · refine List.Nodup.append hnd (by simp) ?_
    intro a ha hb
    simp only [List.mem_singleton] at hb
    exact hdisj tr _ hr a ha (by tauto)
  · refine List.Nodup.append hnd (by simp) ?_
    intro a ha hb
    simp only [List.mem_cons, List.mem_singleton, List.not_mem_nil, or_false] at hb
    exact hdisj tr _ hr a ha (by tauto)
  · refine List.Nodup.append hnd (by simp) ?_
    intro a ha hb
    simp only [List.mem_cons, List.mem_singleton, List.not_mem_nil, or_false] at hb
    exact hdisj tr _ hr a ha (by tauto)

/-- The read-stage and parse-stage wrap messages are distinct for every
path (their fixed parts have different lengths). -/
theorem readStageMsg_ne_parseStageMsg (p : String) :
    readStageMsg p ≠ parseStageMsg p := by
  intro h
  have hlen := congrArg String.length h
  have h1 : ("reading kubeconfig at " : String).length = 22 := rfl
  have h2 : ("building rest config from kubeconfig at " : String).length = 40 := rfl
  simp [readStageMsg, parseStageMsg, String.length_append, h1, h2] at hlen

/-! ### Claim theorems -/

/-- C1: `retrieveKubeConfig` uses exactly one of the two credential sources
per run, in priority order: when the kubeconfig path yields a config, that
config is returned and in-cluster discovery is never attempted; in-cluster
discovery is attempted only when the path yielded no config. -/
theorem retrieveKubeConfig_single_source_priority (env : Env) (cfg : Config) :
    (∀ rc tr, kubeConfigFromPath env cfg.kubeConfigPath = (.ok rc, tr) →
        (retrieveKubeConfig env cfg).1 = .ok rc ∧
        Event.inClusterAttempt ∉ (retrieveKubeConfig env cfg).2) ∧
    (Event.inClusterAttempt ∈ (retrieveKubeConfig env cfg).2 →
        ∀ rc tr, kubeConfigFromPath env cfg.kubeConfigPath ≠ (.ok rc, tr)) := by
  constructor
  · intro rc tr h
    have hni : Event.inClusterAttempt ∉ tr := by
      intro hm
      rcases kcfp_trace_mem env cfg.kubeConfigPath _ (by rw [h]; exact hm) with
        h1 | ⟨d, h1⟩ <;> simp at h1
    rcases retrieve_cases env cfg with ⟨rc', tr', hk, hrv⟩ | ⟨e, tr', hk, he, hrv⟩ |
        ⟨e, tr', hk, he, h3⟩
    · rw [h] at hk
      simp only [Prod.mk.injEq, Except.ok.injEq] at hk
      obtain ⟨h1, h2⟩ := hk
      subst h1; subst h2
      rw [hrv]
      exact ⟨rfl, hni⟩
    · rw [h] at hk; simp at hk
    · rw [h] at hk; simp at hk
  · intro hm rc tr h
    have hni : Event.inClusterAttempt ∉ tr := by
      intro hm'
      rcases kcfp_trace_mem env cfg.kubeConfigPath _ (by rw [h]; exact hm') with
        h1 | ⟨d, h1⟩ <;> simp at h1
    rcases retrieve_cases env cfg with ⟨rc', tr', hk, hrv⟩ | ⟨e, tr', hk, he, hrv⟩ |
        ⟨e, tr', hk, he, h3⟩
    · rw [h] at hk
      simp only [Prod.mk.injEq, Except.ok.injEq] at hk
      obtain ⟨h1, h2⟩ := hk
      subst h1; subst h2
      rw [hrv] at hm
      exact hni hm
    · rw [h] at hk; simp at hk
    · rw [h] at hk; simp at hk

/-- Witness for C1: in a world where the kubeconfig file parses, the file's
config is returned and in-cluster discovery is not attempted. -/
theorem retrieveKubeConfig_single_source_priority_witness :
    (retrieveKubeConfig envAllOk cfgWithPath).1 = .ok rcFile ∧
    Event.inClusterAttempt ∉ (retrieveKubeConfig envAllOk cfgWithPath).2 :=
  (retrieveKubeConfig_single_source_priority envAllOk cfgWithPath).1 rcFile
    [.readFile "kc.yaml", .parseConfig "apiVersion: v1"] rfl

/-- C2: with an empty kubeconfig path the sentinel is returned before any
I/O, the sentinel is non-fatal, and resolution performs exactly the
in-cluster attempt — no file read and no parse. -/
theorem emptyPath_falls_back_inCluster (env : Env) (cfg : Config)
    (h : cfg.kubeConfigPath = "") :
    kubeConfigFromPath env cfg.kubeConfigPath = (.error .emptyPath, []) ∧
    (retrieveKubeConfig env cfg).2 = [.inClusterAttempt] ∧
    (∀ p, Event.readFile p ∉ (retrieveKubeConfig env cfg).2) ∧
    (∀ d, Event.parseConfig d ∉ (retrieveKubeConfig env cfg).2) := by
  have hk : kubeConfigFromPath env cfg.kubeConfigPath = (.error .emptyPath, []) := by
    rw [h]; rfl
  have htr : (retrieveKubeConfig env cfg).2 = [.inClusterAttempt] := by
    rcases retrieve_cases env cfg with ⟨rc, tr, hk', hrv⟩ | ⟨e, tr, hk', he, hrv⟩ |
        ⟨e, tr, hk', he, h3⟩
    · rw [hk] at hk'; simp at hk'
    · rw [hk] at hk'
      simp only [Prod.mk.injEq, Except.error.injEq] at hk'
      obtain ⟨h1, h2⟩ := hk'
      subst h1
      simp [KubeErr.isErrEmptyPath] at he
    · rcases h3 with ⟨e2, hi, hrv⟩ | ⟨c2, hi, hrv⟩ <;>
      · rw [hk] at hk'
        simp only [Prod.mk.injEq, Except.error.injEq] at hk'
        obtain ⟨h1, h2⟩ := hk'
        subst h2
        rw [hrv]
        rfl
  refine ⟨hk, htr, ?_, ?_⟩ <;> intro x <;> rw [htr] <;> simp

/-- Witness for C2 at a concrete configuration with empty path. -/
theorem emptyPath_falls_back_inCluster_witness :
    kubeConfigFromPath envAllOk cfgEmptyPath.kubeConfigPath =
      (.error .emptyPath, []) ∧
    (retrieveKubeConfig envAllOk cfgEmptyPath).2 = [.inClusterAttempt] ∧
    (∀ p, Event.readFile p ∉ (retrieveKubeConfig envAllOk cfgEmptyPath).2) ∧
    (∀ d, Event.parseConfig d ∉ (retrieveKubeConfig envAllOk cfgEmptyPath).2) :=
  emptyPath_falls_back_inCluster envAllOk cfgEmptyPath rfl

/-- C3: for a non-empty path, a read failure yields an error wrapped with
the read-stage message and never the parse-stage message, while a readable
but malformed file yields an error wrapped with the parse-stage message
and never the read-stage message. -/
theorem kubeConfigFromPath_stage_errors (env : Env) (p : String) (hp : p ≠ "") :
    (∀ e, env.readFile p = .error e →
        ∃ err, (kubeConfigFromPath env p).1 = .error err ∧
          err.hasMsg (readStageMsg p) = true ∧
          err.hasMsg (parseStageMsg p) = false) ∧
    (∀ d e, env.readFile p = .ok d → env.restConfigFromKubeConfig d = .error e →
        ∃ err, (kubeConfigFromPath env p).1 = .error err ∧
          err.hasMsg (parseStageMsg p) = true ∧
          err.hasMsg (readStageMsg p) = false) := by
  constructor
  · intro e he
    refine ⟨.wrap (readStageMsg p) (.osError e), ?_, ?_, ?_⟩
    · simp [kubeConfigFromPath, hp, he]
    · simp [KubeErr.hasMsg]
    · simp [KubeErr.hasMsg, readStageMsg_ne_parseStageMsg p]
  · intro d e hd he
    refine ⟨.wrap (parseStageMsg p) (.clientcmdError e), ?_, ?_, ?_⟩
    · simp [kubeConfigFromPath, hp, hd, he]
    · simp [KubeErr.hasMsg]
    · simp [KubeErr.hasMsg, Ne.symm (readStageMsg_ne_parseStageMsg p)]

/-- Witness for C3: a failing read on a concrete path produces a read-stage
error, and a malformed file produces a parse-stage error. -/
theorem kubeConfigFromPath_stage_errors_witness :
    (∃ err, (kubeConfigFromPath envReadFail "kc.yaml").1 = .error err ∧
        err.hasMsg (readStageMsg "kc.yaml") = true ∧
        err.hasMsg (parseStageMsg "kc.yaml") = false) ∧
    (∃ err, (kubeConfigFromPath envParseFail "kc.yaml").1 = .error err ∧
        err.hasMsg (parseStageMsg "kc.yaml") = true ∧
        err.hasMsg (readStageMsg "kc.yaml") = false) :=
  ⟨(kubeConfigFromPath_stage_errors envReadFail "kc.yaml" (by decide)).1
      "no such file" rfl,
   (kubeConfigFromPath_stage_errors envParseFail "kc.yaml" (by decide)).2
      "apiVersion: v1" "yaml error" rfl rfl⟩

/-- The level strings the `switch` in `prepareLogger` recognizes. -/
def recognizedLevelStrings : List String :=
  ["debug", "DEBUG", "info", "INFO", "warning", "WARNING",
   "error", "ERROR", "fatal", "FATAL", "panic", "PANIC"]

/-- C4 counterexample: "Debug" is a mixed-case spelling of the recognized
word "debug", yet `prepareLogger` selects the warning level for it, while
the all-lowercase and all-uppercase spellings select the debug level —
refuting case-insensitive matching. -/
theorem mixed_case_level_not_recognized :
    (prepareLogger "v" "Debug" false).logger.level = LogrusLevel.warn ∧
    (prepareLogger "v" "debug" false).logger.level = LogrusLevel.debug ∧
    (prepareLogger "v" "DEBUG" false).logger.level = LogrusLevel.debug ∧
    LogrusLevel.warn ≠ LogrusLevel.debug :=
  ⟨rfl, rfl, rfl, by simp⟩

/-- C4 (amended): `prepareLogger` recognizes each level word only in its
all-lowercase or all-uppercase spelling; every other string — including
mixed-case spellings of recognized words — selects the warning level. -/
theorem level_casing_exact (version level : String) (json : Bool) :
    ((prepareLogger version level json).logger.level = LogrusLevel.debug ↔
        level = "debug" ∨ level = "DEBUG") ∧
    ((prepareLogger version level json).logger.level = LogrusLevel.info ↔
        level = "info" ∨ level = "INFO") ∧
    ((prepareLogger version level json).logger.level = LogrusLevel.error ↔
        level = "error" ∨ level = "ERROR") ∧
    ((prepareLogger version level json).logger.level = LogrusLevel.fatal ↔
        level = "fatal" ∨ level = "FATAL") ∧
    ((prepareLogger version level json).logger.level = LogrusLevel.panic ↔
        level = "panic" ∨ level = "PANIC") ∧
    (level ∉ recognizedLevelStrings →
        (prepareLogger version level json).logger.level = LogrusLevel.warn) := by
  have hlevel : (prepareLogger version level json).logger.level =
      setLevelFromString level := by
    cases json <;> rfl
  rw [hlevel]
  unfold setLevelFromString recognizedLevelStrings
  split_ifs with h1 h2 h3 h4 h5 h6
  · rcases h1 with h | h <;> subst h <;> decide
  · rcases h2 with h | h <;> subst h <;> decide
  · rcases h3 with h | h <;> subst h <;> decide
  · rcases h4 with h | h <;> subst h <;> decide
  · rcases h5 with h | h <;> subst h <;> decide
  · rcases h6 with h | h <;> subst h <;> decide
  · simp_all

/-- Witness for C4 (amended): an unrecognized string selects warning. -/
theorem level_casing_exact_witness :
    (prepareLogger "v" "verbose" true).logger.level = LogrusLevel.warn :=
  (level_casing_exact "v" "verbose" true).2.2.2.2.2 (by decide)

/-- C5: when the bootstrap up to and including node resolution succeeds,
the run parks on the cancellation context (`waitDone`) and, the wait
completing on receipt of the shutdown signal, returns `nil`. -/
theorem run_returns_nil_after_shutdown (env : Env) (c : Ctx) (cfg : Config)
    (rc : RestConfig) (cs : Clientset) (n : Node)
    (h1 : (retrieveKubeConfig env cfg).1 = .ok rc)
    (h2 : env.newForConfig rc = .ok cs)
    (h3 : env.getNode cs = .ok n) :
    (run env c cfg).err = none ∧ Event.waitDone ∈ (run env c cfg).trace := by
  rcases run_cases env c cfg with ⟨e, tr, hr, hrun⟩ | ⟨rc', tr, e, hr, hn, hrun⟩ |
      ⟨rc', tr, cs', e, hr, hn, hg, hrun⟩ | ⟨rc', tr, cs', n', hr, hn, hg, hrun⟩
  · rw [hr] at h1; simp at h1
  · rw [hr] at h1
    simp only [Except.ok.injEq] at h1
    subst h1
    rw [h2] at hn; simp at hn
  · rw [hr] at h1
    simp only [Except.ok.injEq] at h1
    subst h1
    rw [h2] at hn
    simp only [Except.ok.injEq] at hn
    subst hn
    rw [h3] at hg; simp at hg
  · rw [hrun]
    exact ⟨rfl, by simp⟩

/-- Witness for C5 at the all-success world. -/
theorem run_returns_nil_after_shutdown_witness :
    (run envAllOk [] cfgWithPath).err = none ∧
    Event.waitDone ∈ (run envAllOk [] cfgWithPath).trace :=
  run_returns_nil_after_shutdown envAllOk [] cfgWithPath rcFile
    { restConfig := rcFile } { name := "node-1" } rfl rfl rfl

/-- The error `run` returns when the kubeconfig read fails on
`cfgWithPath` in `envReadFail`. -/
def runErrReadFail : KubeErr :=
  .wrap "retrieving kube config"
    (.wrap "retrieving kube config from path"
      (.wrap (readStageMsg "kc.yaml") (.osError "no such file")))

/-- C6: every bootstrap failure surfaces from `run` wrapped with one of the
three contextual messages and reaches the fatal log call in `runCmd`, and
no step is retried (the run trace never repeats an event). -/
theorem bootstrap_errors_wrapped_fatal_no_retry (env : Env) (c : Ctx)
    (cfg : Config) :
    (∀ e, (run env c cfg).err = some e →
        ((∃ e0, e = KubeErr.wrap "retrieving kube config" e0) ∨
         (∃ e0, e = KubeErr.wrap "initializing kubernetes client" e0) ∨
         (∃ e0, e = KubeErr.wrap "getting node" e0)) ∧
        (runCmd env c cfg).1 = CmdOutcome.fatalExit e) ∧
    (run env c cfg).trace.Nodup := by
  refine ⟨?_, run_trace_nodup env c cfg⟩
  intro e he
  have hcmd : (runCmd env c cfg).1 = CmdOutcome.fatalExit e := by
    simp [runCmd, he]
  refine ⟨?_, hcmd⟩
  rcases run_cases env c cfg with ⟨e1, tr, hr, hrun⟩ | ⟨rc, tr, e1, hr, hn, hrun⟩ |
      ⟨rc, tr, cs, e1, hr, hn, hg, hrun⟩ | ⟨rc, tr, cs, n, hr, hn, hg, hrun⟩ <;>
    rw [hrun] at he <;> simp at he
  · exact Or.inl ⟨_, he.symm⟩
  · exact Or.inr (Or.inl ⟨_, he.symm⟩)
  · exact Or.inr (Or.inr ⟨_, he.symm⟩)

/-- Witness for C6: the concrete read failure is wrapped and fatal. -/
theorem bootstrap_errors_wrapped_fatal_no_retry_witness :
    ((∃ e0, runErrReadFail = KubeErr.wrap "retrieving kube config" e0) ∨
     (∃ e0, runErrReadFail = KubeErr.wrap "initializing kubernetes client" e0) ∨
     (∃ e0, runErrReadFail = KubeErr.wrap "getting node" e0)) ∧
    (runCmd envReadFail [] cfgWithPath).1 = CmdOutcome.fatalExit runErrReadFail :=
  (bootstrap_errors_wrapped_fatal_no_retry envReadFail [] cfgWithPath).1
    runErrReadFail rfl

/-- C7: with the retry flags and their environment variables absent, the
retry interval defaults to five minutes (`5 * time.Minute` nanoseconds)
and the retry attempt count defaults to ten. -/
theorem retry_flag_defaults :
    effectiveRetryInterval none none = 5 * 60 * 1000000000 ∧
    effectiveRetryAttempts none none = 10 ∧
    defaultRetryInterval = 300000000000 ∧
    defaultRetryAttempts = 10 := by
  refine ⟨rfl, rfl, by norm_num [defaultRetryInterval], rfl⟩

/-- C8: the wait on the cancellation context is reached exactly when all
three bootstrap steps succeed; on any bootstrap error `run` returns the
wrapped error without ever reaching the wait. -/
theorem run_waits_only_after_bootstrap (env : Env) (c : Ctx) (cfg : Config) :
    (Event.waitDone ∈ (run env c cfg).trace ↔
        ∃ rc cs n, (retrieveKubeConfig env cfg).1 = .ok rc ∧
          env.newForConfig rc = .ok cs ∧ env.getNode cs = .ok n) ∧
    (∀ e, (run env c cfg).err = some e →
        Event.waitDone ∉ (run env c cfg).trace) := by
  have hwd : ∀ tr r, retrieveKubeConfig env cfg = (r, tr) →
      Event.waitDone ∉ tr := by
    intro tr r hrv hm
    rcases retrieve_trace_mem env cfg _ (by rw [hrv]; exact hm) with
      h1 | ⟨d, h1⟩ | h1 <;> simp at h1
  rcases run_cases env c cfg with ⟨e1, tr, hr, hrun⟩ | ⟨rc, tr, e1, hr, hn, hrun⟩ |
      ⟨rc, tr, cs, e1, hr, hn, hg, hrun⟩ | ⟨rc, tr, cs, n, hr, hn, hg, hrun⟩
  · refine ⟨⟨fun hm => ?_, fun ⟨rc', cs', n', h1, h2, h3⟩ => ?_⟩, fun e he hm => ?_⟩
    · rw [hrun] at hm
      exact absurd hm (hwd tr _ hr)
    · rw [hr] at h1; simp at h1
    · rw [hrun] at hm
      exact absurd hm (hwd tr _ hr)
  · refine ⟨⟨fun hm => ?_, fun ⟨rc', cs', n', h1, h2, h3⟩ => ?_⟩, fun e he hm => ?_⟩
    · rw [hrun] at hm
      simp only [List.mem_append, List.mem_singleton] at hm
      rcases hm with hm | hm
      · exact absurd hm (hwd tr _ hr)
      · simp at hm
    · rw [hr] at h1
      simp only [Except.ok.injEq] at h1
      subst h1
      rw [h2] at hn; simp at hn
    · rw [hrun] at hm
      simp only [List.mem_append, List.mem_singleton] at hm
      rcases hm with hm | hm
      · exact absurd hm (hwd tr _ hr)
      · simp at hm
  · refine ⟨⟨fun hm => ?_, fun ⟨rc', cs', n', h1, h2, h3⟩ => ?_⟩, fun e he hm => ?_⟩
    · rw [hrun] at hm
      simp only [List.mem_append, List.mem_cons, List.mem_singleton,
        List.not_mem_nil, or_false] at hm
      rcases hm with hm | hm | hm
      · exact absurd hm (hwd tr _ hr)
      · simp at hm
      · simp at hm
    · rw [hr] at h1
      simp only [Except.ok.injEq] at h1
      subst h1
      rw [h2] at hn
      simp only [Except.ok.injEq] at hn
      subst hn
      rw [h3] at hg; simp at hg
    · rw [hrun] at hm
      simp only [List.mem_append, List.mem_cons, List.mem_singleton,
        List.not_mem_nil, or_false] at hm
      rcases hm with hm | hm | hm
      · exact absurd hm (hwd tr _ hr)
      · simp at hm
      · simp at hm
  · refine ⟨⟨fun hm => ?_, fun h => ?_⟩, fun e he hm => ?_⟩
    · refine ⟨rc, cs, n, ?_, hn, hg⟩
      rw [hr]
    · rw [hrun]
      simp
    · rw [hrun] at he
      simp at he

/-- Witness for C8: with a failing read, the run returns an error and the
wait event never appears in its trace. -/
theorem run_waits_only_after_bootstrap_witness :
    Event.waitDone ∉ (run envReadFail [] cfgWithPath).trace :=
  (run_waits_only_after_bootstrap envReadFail [] cfgWithPath).2
    runErrReadFail rfl

/-- C9: `prepareLogger` is total: it always returns an entry carrying the
version field, and the JSON formatter is installed exactly when `json` is
set (overriding the text formatter installed just before), regardless of
the level string. -/
theorem prepareLogger_total_version_json (version level : String) (json : Bool) :
    ("version", version) ∈ (prepareLogger version level json).fields ∧
    (json = true →
        (prepareLogger version level json).logger.formatter = .json) ∧
    (json = false →
        (prepareLogger version level json).logger.formatter = .text true) := by
  cases json <;> simp [prepareLogger]

/-- Witness for C9: with `json` set, the JSON formatter is installed even
for an unrecognized level string. -/
theorem prepareLogger_total_version_json_witness :
    ("version", "v1") ∈ (prepareLogger "v1" "Bogus" true).fields ∧
    (prepareLogger "v1" "Bogus" true).logger.formatter = .json :=
  ⟨(prepareLogger_total_version_json "v1" "Bogus" true).1,
   (prepareLogger_total_version_json "v1" "Bogus" true).2.1 rfl⟩

/-- C10: given a parent context without the develop-mode key, the derived
context carries the key (with value `true`) exactly when
`cfg.DevelopMode` holds, and the configuration record is unchanged at
return. -/
theorem run_develop_mode_context (env : Env) (c : Ctx) (cfg : Config)
    (h : List.lookup developModeKey c = none) :
    (List.lookup developModeKey (run env c cfg).ctx =
        if cfg.developMode then some true else none) ∧
    (run env c cfg).cfgAtReturn = cfg := by
  have hctx : (run env c cfg).ctx = derivedCtx c cfg := by
    rcases run_cases env c cfg with ⟨e, tr, hr, hrun⟩ | ⟨rc, tr, e, hr, hn, hrun⟩ |
        ⟨rc, tr, cs, e, hr, hn, hg, hrun⟩ | ⟨rc, tr, cs, n, hr, hn, hg, hrun⟩ <;>
      rw [hrun]
  have hcfg : (run env c cfg).cfgAtReturn = cfg := by
    rcases run_cases env c cfg with ⟨e, tr, hr, hrun⟩ | ⟨rc, tr, e, hr, hn, hrun⟩ |
        ⟨rc, tr, cs, e, hr, hn, hg, hrun⟩ | ⟨rc, tr, cs, n, hr, hn, hg, hrun⟩ <;>
      rw [hrun]
  refine ⟨?_, hcfg⟩
  rw [hctx]
  unfold derivedCtx
  cases hdm : cfg.developMode
  · simpa using h
  · simp [List.lookup]

/-- Witness for C10: with develop mode on and an empty parent context, the
derived context carries the key. -/
theorem run_develop_mode_context_witness :
    List.lookup developModeKey (run envAllOk [] cfgDev).ctx = some true ∧
    (run envAllOk [] cfgDev).cfgAtReturn = cfgDev :=
  ⟨((run_develop_mode_context envAllOk [] cfgDev rfl).1).trans rfl,
   (run_develop_mode_context envAllOk [] cfgDev rfl).2⟩

end KubeIP
